import Mathlib

/-!
Formal model of the Catalyst career-chat backend pipeline.

The definitions below are a shallow embedding of the query-routing and
context-assembly pipeline implemented in `app/services/rag_service.py`,
`app/services/crew_service.py`, `app/services/chat_service.py`,
`app/api/chat.py` and `app/config.py`.  External backends (the Chroma
vector store and the Gemini generation backend) are modelled by their
observable behaviour for a given query: the ranked result lists they
return and whether they raise.  Long canned response literals from the
source are reproduced in abbreviated ASCII form; only their selection
and non-emptiness are relied upon by the theorems.
-/

/-- Substring test on character lists: true when `needle` occurs
contiguously inside `hay`.  This is the semantics of the Python `in`
operator on strings, used by the keyword matchers. -/
def charsContain (needle : List Char) : List Char → Bool
  | [] => needle.isEmpty
  | c :: rest => needle.isPrefixOf (c :: rest) || charsContain needle rest

/-- Python `kw in s` for strings. -/
def strContains (s kw : String) : Bool :=
  charsContain kw.toList s.toList

/-- Python `s.lower()`, character by character.  The queries and the
keyword tables are ASCII, where `Char.toLower` agrees with Python. -/
def pyLower (s : String) : String :=
  ⟨s.data.map Char.toLower⟩

/-- Keyword triggers for the Resume Expert persona
(crew_service.py line 119). -/
def resume_keywords : List String :=
  ["resume", "cv", "application", "ats", "optimize", "format", "cover letter"]

/-- Keyword triggers for the Interview Coach persona (line 120). -/
def interview_keywords : List String :=
  ["interview", "preparation", "questions", "behavioral", "practice", "mock"]

/-- Keyword triggers for the Skill Advisor persona (line 121). -/
def skill_keywords : List String :=
  ["skills", "learning", "course", "certification", "training", "development"]

/-- Keyword triggers for the Career Analyst persona (line 122). -/
def market_keywords : List String :=
  ["salary", "market", "trends", "industry", "compensation", "career path"]

/-- Keyword triggers for the Networking Specialist persona (line 123). -/
def networking_keywords : List String :=
  ["networking", "connections", "linkedin", "events", "professional network"]

/-- Python `sum(1 for keyword in kws if keyword in query_lower)`:
the number of trigger keywords occurring as substrings. -/
def keyword_score (query_lower : String) (kws : List String) : Nat :=
  (kws.filter (fun kw => strContains query_lower kw)).length

/-- The scores dict of `CrewService.determine_agent` in its Python
insertion order (crew_service.py lines 133-139). -/
def agent_scores (query_lower : String) : List (String × Nat) :=
  [("Resume Expert", keyword_score query_lower resume_keywords),
   ("Interview Coach", keyword_score query_lower interview_keywords),
   ("Skill Advisor", keyword_score query_lower skill_keywords),
   ("Career Analyst", keyword_score query_lower market_keywords),
   ("Networking Specialist", keyword_score query_lower networking_keywords)]

/-- Python `max(scores.items(), key=lambda x: x[1])`: iterates in
insertion order and replaces the current best only on a strictly
greater value, so the first item attaining the maximum wins.  The `[]`
case is unreachable (the scores list has five entries). -/
def max_item : List (String × Nat) → String × Nat
  | [] => ("Career Analyst", 0)
  | x :: xs => xs.foldl (fun best y => if best.2 < y.2 then y else best) x

/-- Model of `CrewService.determine_agent` (crew_service.py lines 114-155),
restricted to the selected agent name; the returned `Agent` object is
determined by that name via `agent_mapping`.  The guard
`max(scores.values()) == 0` is equivalent to the selected pair's score
being zero, since `max_item` returns a pair attaining the maximum. -/
def determine_agent (user_query : String) : String :=
  let query_lower := pyLower user_query
  let best := max_item (agent_scores query_lower)
  if best.2 = 0 then "Career Analyst" else best.1

/-- C3 (counterexample).  The query "resume interview" produces a tie:
the Resume Expert and Interview Coach personas both attain the maximal
distinct-keyword count 1, yet `determine_agent` selects "Resume Expert"
(the first maximal entry in the scores dict), not the claimed default
"Career Analyst". -/
theorem determine_agent_tie_cex :
    determine_agent "resume interview" = "Resume Expert" ∧
    keyword_score (pyLower "resume interview") resume_keywords = 1 ∧
    keyword_score (pyLower "resume interview") interview_keywords = 1 ∧
    keyword_score (pyLower "resume interview") skill_keywords = 0 ∧
    keyword_score (pyLower "resume interview") market_keywords = 0 ∧
    keyword_score (pyLower "resume interview") networking_keywords = 0 := by
  refine ⟨by decide, by decide, by decide, by decide, by decide, by decide⟩

set_option maxHeartbeats 2000000 in
/-- C3 (amended).  `determine_agent` returns "Career Analyst" when the
maximal keyword count is zero; otherwise it returns the first persona
attaining the maximal count in the fixed order Resume Expert, Interview
Coach, Skill Advisor, Career Analyst, Networking Specialist — so a tie
among personas with a positive count resolves to the earliest tied
persona in that order, not necessarily to Career Analyst. -/
theorem determine_agent_first_attaining_max_wins (q : String) :
    determine_agent q =
      (if keyword_score (pyLower q) resume_keywords = 0 ∧
          keyword_score (pyLower q) interview_keywords = 0 ∧
          keyword_score (pyLower q) skill_keywords = 0 ∧
          keyword_score (pyLower q) market_keywords = 0 ∧
          keyword_score (pyLower q) networking_keywords = 0 then "Career Analyst"
       else if keyword_score (pyLower q) interview_keywords ≤ keyword_score (pyLower q) resume_keywords ∧
               keyword_score (pyLower q) skill_keywords ≤ keyword_score (pyLower q) resume_keywords ∧
               keyword_score (pyLower q) market_keywords ≤ keyword_score (pyLower q) resume_keywords ∧
               keyword_score (pyLower q) networking_keywords ≤ keyword_score (pyLower q) resume_keywords then
         "Resume Expert"
       else if keyword_score (pyLower q) skill_keywords ≤ keyword_score (pyLower q) interview_keywords ∧
               keyword_score (pyLower q) market_keywords ≤ keyword_score (pyLower q) interview_keywords ∧
               keyword_score (pyLower q) networking_keywords ≤ keyword_score (pyLower q) interview_keywords then
         "Interview Coach"
       else if keyword_score (pyLower q) market_keywords ≤ keyword_score (pyLower q) skill_keywords ∧
               keyword_score (pyLower q) networking_keywords ≤ keyword_score (pyLower q) skill_keywords then
         "Skill Advisor"
       else if keyword_score (pyLower q) networking_keywords ≤ keyword_score (pyLower q) market_keywords then
         "Career Analyst"
       else "Networking Specialist") := by
  simp only [determine_agent, agent_scores, max_item]
  dsimp only [List.foldl]
  simp only [apply_ite Prod.snd]
  split_ifs <;> first | rfl | omega

/-- Observable behaviour of the Chroma vector store for one query:
which search APIs the wrapped store object exposes (`hasattr` branches
in `RAGService.search_with_scores`), the ranked result lists each API
would return for the query, and whether each call raises.
`relResults` carries normalized relevance scores (higher is better);
`distResults` carries raw distances (lower is better). -/
structure VectorStore where
  hasRelevanceScores : Bool
  hasScore : Bool
  relResults : List (String × Rat)
  distResults : List (String × Rat)
  plainResults : List String
  relRaises : Bool
  distRaises : Bool
  plainRaises : Bool
deriving DecidableEq

/-- State of `RAGService`: `vector_store` is `none` when initialization of
the store failed entirely (`self.vector_store = None`). -/
structure RAGService where
  vector_store : Option VectorStore
deriving DecidableEq

/-- Model of `RAGService.search` (rag_service.py lines 319-333): plain
similarity search; any backend error degrades to `[]`. -/
def RAGService.search (svc : RAGService) (_query : String) (k : Nat) : List String :=
  match svc.vector_store with
  | none => []
  | some vs => if vs.plainRaises then [] else vs.plainResults.take k

/-- Stable insertion of one scored result into a list sorted by
ascending score (models Python `sorted(results, key=lambda x: x[1])`,
which is stable). -/
def insert_by_score (x : String × Rat) : List (String × Rat) → List (String × Rat)
  | [] => [x]
  | y :: ys => if x.2 ≤ y.2 then x :: y :: ys else y :: insert_by_score x ys

/-- Stable sort by ascending score. -/
def sort_by_score : List (String × Rat) → List (String × Rat)
  | [] => []
  | x :: xs => insert_by_score x (sort_by_score xs)

/-- Model of `RAGService.search_with_scores` (rag_service.py lines 335-366).
On the relevance-scores API: keep results with score at or above the
threshold and fall back to the top-2 unfiltered results when the
filter is empty.  On the older distance API: sort ascending and take
k with no threshold.  Errors degrade to `RAGService.search`. -/
def RAGService.search_with_scores (svc : RAGService) (query : String) (k : Nat)
    (score_threshold : Rat) : List String :=
  match svc.vector_store with
  | none => []
  | some vs =>
    if vs.hasRelevanceScores then
      if vs.relRaises then svc.search query k
      else
        let results := vs.relResults.take k
        let filtered_results := (results.filter (fun ds => score_threshold ≤ ds.2)).map Prod.fst
        if filtered_results.isEmpty then (results.take 2).map Prod.fst
        else filtered_results
    else if vs.hasScore then
      if vs.distRaises then svc.search query k
      else ((sort_by_score (vs.distResults.take k)).take k).map Prod.fst
    else svc.search query k

/-- C4.  Against a store exposing the relevance-scores API, if every
retrieved top-k result scores strictly below the threshold, then
`search_with_scores` returns exactly the contents of the top-2
unfiltered results, and in particular a non-empty list whenever the
index returned at least one result. -/
theorem search_with_scores_below_threshold_top2
    (svc : RAGService) (vs : VectorStore) (q : String) (k : Nat) (t : Rat)
    (hvs : svc.vector_store = some vs)
    (hrel : vs.hasRelevanceScores = true)
    (hraise : vs.relRaises = false)
    (hk : 0 < k)
    (hne : vs.relResults ≠ [])
    (hbelow : ∀ ds ∈ vs.relResults.take k, ds.2 < t) :
    svc.search_with_scores q k t = ((vs.relResults.take k).take 2).map Prod.fst ∧
    svc.search_with_scores q k t ≠ [] := by
  have hfilter : (vs.relResults.take k).filter (fun ds => decide (t ≤ ds.2)) = [] := by
    rw [List.filter_eq_nil_iff]
    intro a ha
    simpa using not_le.mpr (hbelow a ha)
  have heq : svc.search_with_scores q k t = ((vs.relResults.take k).take 2).map Prod.fst := by
    simp only [RAGService.search_with_scores, hvs, hrel, hraise, if_true, if_false,
      Bool.false_eq_true, hfilter, List.map_nil, List.isEmpty_nil, ite_true]
  refine ⟨heq, ?_⟩
  rw [heq]
  simp only [ne_eq, List.map_eq_nil_iff, List.take_eq_nil_iff]
  push_neg
  exact ⟨by omega, by omega, hne⟩

/-- Store scenario for the C4 witness: two results, both scoring below
the 0.6 threshold. -/
def c4_store : VectorStore :=
  { hasRelevanceScores := true, hasScore := false,
    relResults := [("career transition advice", mkRat 1 2), ("resume advice", mkRat 2 5)],
    distResults := [], plainResults := [],
    relRaises := false, distRaises := false, plainRaises := false }

/-- RAG service wrapping the C4 witness store. -/
def c4_svc : RAGService := { vector_store := some c4_store }

/-- C4 (witness).  Concrete below-threshold query: the top-2 fallback
returns both stored documents. -/
theorem search_with_scores_below_threshold_top2_witness :
    c4_svc.search_with_scores "query" 4 (mkRat 6 10) =
      ["career transition advice", "resume advice"] ∧
    c4_svc.search_with_scores "query" 4 (mkRat 6 10) ≠ [] := by
  have h := search_with_scores_below_threshold_top2 c4_svc c4_store "query" 4 (mkRat 6 10)
    rfl rfl rfl (by decide) (by decide) (by decide)
  exact ⟨by rw [h.1]; rfl, h.2⟩

/-- Outcome of the single `crew.kickoff()` generation-backend call:
either the extracted response text, or a raised exception with its
message. -/
inductive GenOutcome where
  | ok (text : String)
  | fail (msg : String)
deriving DecidableEq

/-- State of `CrewService`: the generation outcome the backend would
produce for the current query, and the wrapped RAG service. -/
structure CrewService where
  gen : GenOutcome
  rag_service : RAGService
deriving DecidableEq

/-- Canned text of `CrewService._generate_fallback_response`, resume
branch (crew_service.py lines 244-253); abbreviated. -/
def crew_fallback_resume : String :=
  "I understand you are asking about resume/CV optimization. Here are some quick tips:\n- Use action verbs and quantify achievements\n- Tailor your resume to each job application\n- Include relevant keywords from the job posting\n- Keep formatting clean and ATS-friendly\n- Focus on accomplishments, not just job duties"

/-- Canned text, interview branch (lines 255-264); abbreviated. -/
def crew_fallback_interview : String :=
  "I see you are asking about interview preparation. Here are key strategies:\n- Research the company and role thoroughly\n- Practice the STAR method for behavioral questions\n- Prepare 5-7 thoughtful questions to ask them\n- Plan your outfit and logistics in advance"

/-- Canned text, salary branch (lines 266-275); abbreviated. -/
def crew_fallback_salary : String :=
  "For salary negotiation, consider these fundamentals:\n- Research market rates using Glassdoor, PayScale, etc.\n- Know your value and be ready to articulate it\n- Wait for the offer before negotiating\n- Consider the total compensation package"

/-- Canned text, generic branch (lines 277-287); abbreviated. -/
def crew_fallback_generic : String :=
  "I am here to help with your career questions! I can assist with:\n- Resume and CV optimization\n- Interview preparation and practice\n- Salary negotiation strategies\n- Skill development planning\n- Professional networking\n- Career transition guidance"

/-- Model of the private crew fallback generator (crew_service.py lines
239-287): keyword-matched canned fallback text. -/
def generate_fallback_response (user_query : String) : String :=
  let query_lower := pyLower user_query
  if ["resume", "cv", "application"].any (fun kw => strContains query_lower kw) then
    crew_fallback_resume
  else if ["interview", "preparation"].any (fun kw => strContains query_lower kw) then
    crew_fallback_interview
  else if ["salary", "negotiation"].any (fun kw => strContains query_lower kw) then
    crew_fallback_salary
  else crew_fallback_generic

/-- The result dict of `CrewService.get_career_advice` and of
`ChatService._fallback_response`.  `context_used` and `error` are
`Option` because the corresponding dict keys are absent on some
paths. -/
structure CrewResult where
  response : String
  agent_used : String
  status : String
  context_used : Option Bool
  error : Option String
deriving DecidableEq

/-- Model of `CrewService.get_career_advice` (crew_service.py lines 157-237).
When `rag_context_opt` is `none` the service performs its own
retrieval (the `if rag_context is None` branch); the pipeline always
passes the retrieved list.  On generation success the result carries
`context_used = bool(rag_context)`; when the backend raises, the
fallback dict has no `context_used` key. -/
def CrewService.get_career_advice (svc : CrewService) (user_query : String)
    (rag_context_opt : Option (List String)) : CrewResult :=
  let rag_context :=
    match rag_context_opt with
    | some ctx => ctx
    | none => svc.rag_service.search_with_scores user_query 4 (mkRat 6 10)
  match svc.gen with
  | GenOutcome.ok text =>
      { response := text
        agent_used := determine_agent user_query
        status := "success"
        context_used := some (!rag_context.isEmpty)
        error := none }
  | GenOutcome.fail msg =>
      { response := generate_fallback_response user_query
        agent_used := "System Fallback"
        status := "fallback"
        context_used := none
        error := some msg }

/-- State of `ChatService` after construction.  Its `__init__` either sets
both sub-services and `initialized = True`, or catches the exception
and leaves `initialized = False` with both services `None`; the
fields are modelled independently because every method re-checks them.
`unexpected_error` models the outer `try/except` of `process_message`:
when true, an unexpected exception fires during processing and the
error response is returned. -/
structure ChatService where
  initialized : Bool
  rag_service : Option RAGService
  crew_service : Option CrewService
  unexpected_error : Bool
deriving DecidableEq

/-- Canned text of `ChatService._fallback_response`, resume branch
(chat_service.py lines 202-211); abbreviated. -/
def chat_fallback_resume : String :=
  "Here are some key resume tips:\n- Use action verbs and quantify achievements\n- Tailor your resume to each job application\n- Keep it clean and ATS-friendly\n- Focus on accomplishments, not just duties\n- Include relevant keywords from job postings"

/-- Canned text, interview branch (lines 213-222); abbreviated. -/
def chat_fallback_interview : String :=
  "For interview success:\n- Research the company thoroughly\n- Practice the STAR method for behavioral questions\n- Prepare thoughtful questions to ask them\n- Plan your logistics in advance"

/-- Canned text, salary branch (lines 224-233); abbreviated. -/
def chat_fallback_salary : String :=
  "For salary negotiation:\n- Research market rates using salary websites\n- Know your value and be ready to articulate it\n- Wait for the offer before negotiating\n- Consider the total compensation package\n- Be professional and respectful"

/-- Canned text, generic branch (lines 235-245); abbreviated. -/
def chat_fallback_generic : String :=
  "I am here to help with your career questions! I can assist with:\n- Resume and CV optimization\n- Interview preparation\n- Salary negotiation\n- Career transition planning\n- Skill development guidance\n- Professional networking"

/-- Model of the private chat fallback (chat_service.py lines 198-251):
used when the crew service is unavailable.  The returned dict has no
`context_used` and no `error` key. -/
def chat_fallback_response (message : String) : CrewResult :=
  let query_lower := pyLower message
  let response :=
    if ["resume", "cv"].any (fun kw => strContains query_lower kw) then
      chat_fallback_resume
    else if ["interview", "preparation"].any (fun kw => strContains query_lower kw) then
      chat_fallback_interview
    else if ["salary", "negotiation"].any (fun kw => strContains query_lower kw) then
      chat_fallback_salary
    else chat_fallback_generic
  { response := response
    agent_used := "Fallback Assistant"
    status := "fallback"
    context_used := none
    error := none }

/-- The response dict assembled by `ChatService`.  `context_used`,
`collaboration` and `error` are `Option` because those keys are absent
on some paths. -/
structure ChatAnswer where
  response : String
  agent_used : String
  status : String
  sources : List String
  context_used : Option Bool
  collaboration : Option Bool
  error : Option String
deriving DecidableEq

/-- Model of the private error response (chat_service.py lines 253-261). -/
def chat_error_response (error_msg : String) : ChatAnswer :=
  { response := "I am experiencing some technical difficulties right now. Please try rephrasing your question or try again in a moment."
    agent_used := "Error Handler"
    status := "error"
    sources := []
    context_used := none
    collaboration := none
    error := some error_msg }

/-- The RAG-context retrieval step of `ChatService.process_message`
(chat_service.py lines 77-83): `search_with_scores(message, k=4,
score_threshold=0.6)` when the RAG service exists, else `[]`. -/
def ChatService.retrieved_context (svc : ChatService) (message : String) : List String :=
  match svc.rag_service with
  | none => []
  | some rs => rs.search_with_scores message 4 (mkRat 6 10)

/-- Model of `ChatService.process_message` (chat_service.py lines 63-110).
The uninitialized early return (lines 65-71) lacks the `context_used`
key; on the normal path the assembled dict takes each field from the
crew result, with `context_used` defaulting to `bool(rag_context)`
when the key is absent, and `sources` a one-line provenance note
exactly when the retrieved context is non-empty. -/
def ChatService.process_message (svc : ChatService) (message : String) : ChatAnswer :=
  if !svc.initialized then
    { response := "I am sorry, but I am experiencing technical difficulties. Please try again later."
      agent_used := "System Error"
      status := "error"
      sources := []
      context_used := none
      collaboration := none
      error := none }
  else if svc.unexpected_error then
    chat_error_response "unexpected error"
  else
    let rag_context := svc.retrieved_context message
    let result :=
      match svc.crew_service with
      | some cs => cs.get_career_advice message (some rag_context)
      | none => chat_fallback_response message
    let sources :=
      if rag_context.isEmpty then []
      else ["Knowledge base (" ++ toString rag_context.length ++ " relevant documents)"]
    { response := result.response
      agent_used := result.agent_used
      status := result.status
      sources := sources
      context_used := some (result.context_used.getD (!rag_context.isEmpty))
      collaboration := none
      error := none }

/-- Model of `ChatService.get_multi_agent_response` (chat_service.py lines
112-129): delegates to `process_message` and, when both the service
and the crew service are available, adds `collaboration = False` to
the result. -/
def ChatService.get_multi_agent_response (svc : ChatService) (message : String) : ChatAnswer :=
  if !svc.initialized || svc.crew_service.isNone then
    svc.process_message message
  else
    let result := svc.process_message message
    { result with collaboration := some false }

/-- The `ChatResponse` the `/chat` endpoint assembles from the
`process_message` result dict (api/chat.py lines 79-85): every key is
read with a default, `context_used` defaulting to `False`. -/
structure ChatResponse where
  response : String
  sources : List String
  agent_used : String
  status : String
  context_used : Bool
deriving DecidableEq

/-- Assembly of the wire response from a result dict. -/
def ChatResponse.ofResult (result : ChatAnswer) : ChatResponse :=
  { response := result.response
    sources := result.sources
    agent_used := result.agent_used
    status := result.status
    context_used := result.context_used.getD false }

/-- C1 (amended).  On every initialized, non-raising execution path the
answer's `context_used` equals whether the retrieval step returned a
non-empty list — whether its entries passed the threshold or came from
the top-2 below-threshold fallback. -/
theorem process_message_context_used (svc : ChatService) (m : String)
    (h1 : svc.initialized = true) (h2 : svc.unexpected_error = false) :
    (svc.process_message m).context_used = some (!(svc.retrieved_context m).isEmpty) := by
  unfold ChatService.process_message
  rw [h1, h2]
  simp only [Bool.not_true, Bool.false_eq_true, if_false]
  cases hcs : svc.crew_service with
  | none => simp [chat_fallback_response]
  | some cs =>
    cases hg : cs.gen with
    | ok t => simp [CrewService.get_career_advice, hg]
    | fail e => simp [CrewService.get_career_advice, hg]

/-- Store scenario for C1: both retrieved results score below the 0.6
threshold, so they are returned only by the top-2 fallback. -/
def c1_store : VectorStore :=
  { hasRelevanceScores := true, hasScore := false,
    relResults := [("doc one", mkRat 1 2), ("doc two", mkRat 2 5)],
    distResults := [], plainResults := [],
    relRaises := false, distRaises := false, plainRaises := false }

/-- RAG service for the C1 scenario. -/
def c1_rag : RAGService := { vector_store := some c1_store }

/-- Crew service for the C1 scenario: generation succeeds. -/
def c1_crew : CrewService :=
  { gen := GenOutcome.ok "Generated advice.", rag_service := c1_rag }

/-- Chat service for the C1 scenario. -/
def c1_svc : ChatService :=
  { initialized := true, rag_service := some c1_rag,
    crew_service := some c1_crew, unexpected_error := false }

/-- C1 (counterexample).  Every retrieved result scores below the
threshold — so no SimilarityResult passed the relevance filter and the
context came only from the top-2 fallback — yet the returned answer
has `contextUsed = true`. -/
theorem below_threshold_fallback_context_used_cex :
    (ChatResponse.ofResult (c1_svc.process_message "hello")).context_used = true ∧
    c1_store.relResults.all (fun ds => decide (ds.2 < mkRat 6 10)) = true :=
  ⟨by decide, by decide⟩

/-- C1 (witness). -/
theorem process_message_context_used_witness :
    (c1_svc.process_message "hello").context_used =
      some (!(c1_svc.retrieved_context "hello").isEmpty) :=
  process_message_context_used c1_svc "hello" rfl rfl

/-- C2 (amended).  When the generation backend fails, the answer is the
keyword-matched canned fallback with `status = "fallback"` and
`agent_used = "System Fallback"`; the fallback dict carries no
`context_used` key, and the pipeline fills it with whether retrieval
returned context, so it is `false` only when no context was
retrieved. -/
theorem generation_failure_fallback (svc : ChatService) (cs : CrewService) (e m : String)
    (h1 : svc.initialized = true) (h2 : svc.unexpected_error = false)
    (h3 : svc.crew_service = some cs) (h4 : cs.gen = GenOutcome.fail e) :
    (svc.process_message m).status = "fallback" ∧
    (svc.process_message m).agent_used = "System Fallback" ∧
    (svc.process_message m).response = generate_fallback_response m ∧
    (svc.process_message m).context_used = some (!(svc.retrieved_context m).isEmpty) := by
  unfold ChatService.process_message
  rw [h1, h2]
  simp [h3, CrewService.get_career_advice, h4]

/-- Store scenario for C2: one result passes the threshold. -/
def c2_store : VectorStore :=
  { hasRelevanceScores := true, hasScore := false,
    relResults := [("relevant doc", mkRat 9 10)],
    distResults := [], plainResults := [],
    relRaises := false, distRaises := false, plainRaises := false }

/-- RAG service for the C2 scenario. -/
def c2_rag : RAGService := { vector_store := some c2_store }

/-- Crew service for the C2 scenario: the generation backend raises. -/
def c2_crew : CrewService :=
  { gen := GenOutcome.fail "backend down", rag_service := c2_rag }

/-- Chat service for the C2 scenario. -/
def c2_svc : ChatService :=
  { initialized := true, rag_service := some c2_rag,
    crew_service := some c2_crew, unexpected_error := false }

/-- C2 (counterexample).  Generation fails while retrieval returned
context: the fallback answer has `contextUsed = true`, not the claimed
`false`. -/
theorem generation_failure_context_used_cex :
    (c2_svc.process_message "hello").status = "fallback" ∧
    (c2_svc.process_message "hello").agent_used = "System Fallback" ∧
    (ChatResponse.ofResult (c2_svc.process_message "hello")).context_used = true :=
  ⟨by decide, by decide, by decide⟩

/-- C2 (witness). -/
theorem generation_failure_fallback_witness :
    (c2_svc.process_message "hello").status = "fallback" ∧
    (c2_svc.process_message "hello").agent_used = "System Fallback" ∧
    (c2_svc.process_message "hello").response = generate_fallback_response "hello" ∧
    (c2_svc.process_message "hello").context_used =
      some (!(c2_svc.retrieved_context "hello").isEmpty) :=
  generation_failure_fallback c2_svc c2_crew "backend down" "hello" rfl rfl rfl rfl

/-- C5 (amended).  Every `process_message` result has `status` in
{success, fallback, error}; on the fallback and error paths the
response text is a non-empty canned string; on the success path the
response text is the generation backend's output verbatim (and hence
non-empty exactly when the backend returned non-empty text). -/
theorem process_message_wellformed (svc : ChatService) (m : String) :
    ((svc.process_message m).status = "success" ∨ (svc.process_message m).status = "fallback" ∨
      (svc.process_message m).status = "error") ∧
    ((svc.process_message m).status ≠ "success" → (svc.process_message m).response ≠ "") ∧
    ((svc.process_message m).status = "success" →
      ∃ cs t, svc.crew_service = some cs ∧ cs.gen = GenOutcome.ok t ∧
        (svc.process_message m).response = t) := by
  cases hinit : svc.initialized with
  | false =>
    have hst : (svc.process_message m).status = "error" := by
      simp [ChatService.process_message, hinit]
    have hresp : (svc.process_message m).response =
        "I am sorry, but I am experiencing technical difficulties. Please try again later." := by
      simp [ChatService.process_message, hinit]
    refine ⟨Or.inr (Or.inr hst), fun _ => by rw [hresp]; decide,
      fun h => by rw [hst] at h; exact absurd h (by decide)⟩
  | true =>
    cases hue : svc.unexpected_error with
    | true =>
      have hst : (svc.process_message m).status = "error" := by
        simp [ChatService.process_message, hinit, hue, chat_error_response]
      have hresp : (svc.process_message m).response =
          "I am experiencing some technical difficulties right now. Please try rephrasing your question or try again in a moment." := by
        simp [ChatService.process_message, hinit, hue, chat_error_response]
      refine ⟨Or.inr (Or.inr hst), fun _ => by rw [hresp]; decide,
        fun h => by rw [hst] at h; exact absurd h (by decide)⟩
    | false =>
      cases hcs : svc.crew_service with
      | none =>
        have hst : (svc.process_message m).status = "fallback" := by
          simp [ChatService.process_message, hinit, hue, hcs, chat_fallback_response]
        have hresp : (svc.process_message m).response = (chat_fallback_response m).response := by
          simp [ChatService.process_message, hinit, hue, hcs]
        refine ⟨Or.inr (Or.inl hst), fun _ => ?_,
          fun h => by rw [hst] at h; exact absurd h (by decide)⟩
        rw [hresp]
        simp only [chat_fallback_response]
        split_ifs <;> decide
      | some cs =>
        cases hg : cs.gen with
        | ok t =>
          have hst : (svc.process_message m).status = "success" := by
            simp [ChatService.process_message, hinit, hue, hcs,
              CrewService.get_career_advice, hg]
          have hresp : (svc.process_message m).response = t := by
            simp [ChatService.process_message, hinit, hue, hcs,
              CrewService.get_career_advice, hg]
          exact ⟨Or.inl hst, fun hne => absurd hst hne, fun _ => ⟨cs, t, rfl, hg, hresp⟩⟩
        | fail e =>
          have hst : (svc.process_message m).status = "fallback" := by
            simp [ChatService.process_message, hinit, hue, hcs,
              CrewService.get_career_advice, hg]
          have hresp : (svc.process_message m).response = generate_fallback_response m := by
            simp [ChatService.process_message, hinit, hue, hcs,
              CrewService.get_career_advice, hg]
          refine ⟨Or.inr (Or.inl hst), fun _ => ?_,
            fun h => by rw [hst] at h; exact absurd h (by decide)⟩
          rw [hresp]
          simp only [generate_fallback_response]
          split_ifs <;> decide

/-- RAG service for the C5 counterexample: no store, empty context. -/
def c5_rag : RAGService := { vector_store := none }

/-- Crew service for the C5 counterexample: the generation backend
returns the empty string. -/
def c5_crew : CrewService :=
  { gen := GenOutcome.ok "", rag_service := c5_rag }

/-- Chat service for the C5 counterexample. -/
def c5_svc : ChatService :=
  { initialized := true, rag_service := some c5_rag,
    crew_service := some c5_crew, unexpected_error := false }

/-- C5 (counterexample).  With a generation backend that returns the
empty string, the success-path answer has an empty `responseText` for
the non-empty query "career help": nothing in the code guarantees the
claimed non-emptiness on the success path. -/
theorem empty_generation_empty_response_cex :
    (c5_svc.process_message "career help").status = "success" ∧
    (c5_svc.process_message "career help").response = "" :=
  ⟨by decide, by decide⟩

/-- Chat service for the C5 witness: crew unavailable, fallback path. -/
def c5_fallback_svc : ChatService :=
  { initialized := true, rag_service := none,
    crew_service := none, unexpected_error := false }

/-- C5 (witness). -/
theorem process_message_wellformed_witness :
    (c5_fallback_svc.process_message "hi").response ≠ "" :=
  (process_message_wellformed c5_fallback_svc "hi").2.1 (by decide)

/-- C6.  On every path, the wire response satisfies `contextUsed` true
iff `sources` non-empty: the provenance note is attached exactly when
retrieval returned context, which is also exactly when `contextUsed`
ends up true. -/
theorem context_used_matches_sources (svc : ChatService) (m : String) :
    (ChatResponse.ofResult (svc.process_message m)).context_used =
      !(ChatResponse.ofResult (svc.process_message m)).sources.isEmpty := by
  unfold ChatResponse.ofResult ChatService.process_message
  cases hinit : svc.initialized with
  | false => simp
  | true =>
    cases hue : svc.unexpected_error with
    | true => simp [chat_error_response]
    | false =>
      simp only [Bool.not_true, Bool.false_eq_true, if_false]
      cases hcs : svc.crew_service with
      | none =>
        by_cases hr : (svc.retrieved_context m).isEmpty <;>
          simp [chat_fallback_response, hr]
      | some cs =>
        cases hg : cs.gen with
        | ok t =>
          by_cases hr : (svc.retrieved_context m).isEmpty <;>
            simp [CrewService.get_career_advice, hg, hr]
        | fail e =>
          by_cases hr : (svc.retrieved_context m).isEmpty <;>
            simp [CrewService.get_career_advice, hg, hr]

/-- C10.  `get_multi_agent_response` returns exactly the
`process_message` answer, with `collaboration = False` added when the
service and the crew service are both available; `process_message`
itself never sets a `collaboration` key. -/
theorem get_multi_agent_matches_process (svc : ChatService) (m : String) :
    svc.get_multi_agent_response m =
      (if svc.initialized && svc.crew_service.isSome then
        { svc.process_message m with collaboration := some false }
       else svc.process_message m) ∧
    (svc.process_message m).collaboration = none := by
  constructor
  · unfold ChatService.get_multi_agent_response
    cases hinit : svc.initialized <;> cases hcs : svc.crew_service <;>
      simp [hinit, hcs]
  · cases hinit : svc.initialized <;> cases hue : svc.unexpected_error <;>
      simp [ChatService.process_message, hinit, hue, chat_error_response]

/-- The health dict returned by `ChatService.health_check` and the
`/health` endpoint; `services` is absent on the unhealthy paths. -/
structure HealthStatus where
  status : String
  message : String
  services : Option (String × String)
deriving DecidableEq

/-- Model of `ChatService.health_check` (chat_service.py lines 31-61): pure
inspection of the service fields; no retrieval or generation call is
made. -/
def ChatService.health_check (svc : ChatService) : HealthStatus :=
  if !svc.initialized then
    { status := "unhealthy", message := "Chat service failed to initialize", services := none }
  else
    let rag_status :=
      match svc.rag_service with
      | some rs => if rs.vector_store.isSome then "healthy" else "unhealthy"
      | none => "unhealthy"
    let crew_status := if svc.crew_service.isSome then "healthy" else "unhealthy"
    let overall_status :=
      if rag_status == "healthy" && crew_status == "healthy" then "healthy" else "degraded"
    { status := overall_status
      message := "RAG: " ++ rag_status ++ ", CrewAI: " ++ crew_status
      services := some (rag_status, crew_status) }

/-- State of the API module (api/chat.py): the lazily created global
`chat_service`, plus a count of generation-backend calls made so far
(a ghost counter used to state that health checks never invoke the
generation backend). -/
structure ApiState where
  chat_service : Option ChatService
  genCalls : Nat
deriving DecidableEq

/-- Model of `get_chat_service` (api/chat.py lines 16-29).  `ChatService()`
catches its own exceptions inside `__init__`, so construction always
returns an object; `ctor` is the service that construction would
produce. -/
def get_chat_service (st : ApiState) (ctor : ChatService) : ApiState × ChatService :=
  match st.chat_service with
  | some svc => (st, svc)
  | none => ({ st with chat_service := some ctor }, ctor)

/-- The `/health` endpoint (api/chat.py lines 31-54): initializes the
service once under the lock, then reports `ChatService.health_check`
without any generation call. -/
def api_health_check (st : ApiState) (ctor : ChatService) : ApiState × HealthStatus :=
  let r := get_chat_service st ctor
  if !r.2.initialized then
    (r.1, { status := "unhealthy", message := "Chat service failed to initialize", services := none })
  else
    (r.1, r.2.health_check)

/-- Number of generation-backend calls one `process_message` makes:
exactly one `crew.kickoff()` when the crew path runs. -/
def ChatService.gen_calls (svc : ChatService) : Nat :=
  if svc.initialized && !svc.unexpected_error && svc.crew_service.isSome then 1 else 0

/-- The `/chat` endpoint (api/chat.py lines 56-96), tracking the ghost
generation-call counter. -/
def api_chat (st : ApiState) (ctor : ChatService) (message : String) : ApiState × ChatAnswer :=
  let r := get_chat_service st ctor
  ({ r.1 with genCalls := r.1.genCalls + r.2.gen_calls }, r.2.process_message message)

/-- C7 (amended).  The health endpoint performs no generation-backend
call and is idempotent after the first call: one call brings the API
state to a fixed point, and a repeated call returns the same state and
result as the first. -/
theorem api_health_check_idempotent_after_first (st : ApiState) (ctor : ChatService) :
    api_health_check (api_health_check st ctor).1 ctor = api_health_check st ctor ∧
    (api_health_check st ctor).1.genCalls = st.genCalls := by
  cases hcs : st.chat_service with
  | some svc =>
    cases hi : svc.initialized <;>
      simp [api_health_check, get_chat_service, hcs, hi]
  | none =>
    cases hi : ctor.initialized <;>
      simp [api_health_check, get_chat_service, hcs, hi]

/-- Constructed service for the C7 counterexample. -/
def c7_ctor : ChatService :=
  { initialized := false, rag_service := none,
    crew_service := none, unexpected_error := false }

/-- C7 (counterexample).  From the fresh API state (no service built
yet) the first health check mutates the pipeline state: it constructs
and stores the chat service, so health checking is not state-preserving
on the very first call. -/
theorem api_health_check_first_call_mutates_state :
    ({ chat_service := none, genCalls := 0 } : ApiState).chat_service.isSome = false ∧
    (api_health_check { chat_service := none, genCalls := 0 } c7_ctor).1.chat_service.isSome = true :=
  ⟨by decide, by decide⟩

/-- The chunking-related fields of `Settings` (config.py lines 24-25)
with their declared defaults.  The class declares plain typed fields
and no validators, so pydantic accepts any integer values for them. -/
structure Settings where
  CHUNK_SIZE : Int := 800
  CHUNK_OVERLAP : Int := 100
deriving DecidableEq

/-- Configuration-validation outcome: config.py contains no validator
or cross-field check, so every assignment is accepted unchanged. -/
def Settings.accepted (_s : Settings) : Bool := true

/-- The arguments `RAGService.load_documents` passes to
`RecursiveCharacterTextSplitter` (rag_service.py lines 136-140): the
raw configured values, with no correction applied beforehand. -/
def load_documents_splitter_args (s : Settings) : Int × Int :=
  (s.CHUNK_SIZE, s.CHUNK_OVERLAP)

/-- C8 (code_bug evidence).  The configuration with
`CHUNK_OVERLAP = CHUNK_SIZE = 800` passes configuration validation
(no check exists) and the sliding-window splitter is invoked with
overlap equal to size, contradicting the requirement that
`chunkOverlap >= chunkSize` be rejected or corrected before chunking
runs. -/
theorem chunk_overlap_reaches_splitter :
    Settings.accepted { CHUNK_SIZE := 800, CHUNK_OVERLAP := 800 } = true ∧
    load_documents_splitter_args { CHUNK_SIZE := 800, CHUNK_OVERLAP := 800 } = (800, 800) ∧
    ¬ ((800 : Int) < 800) :=
  ⟨by decide, by decide, by decide⟩

/-- Program counter of one request coroutine executing
`get_chat_service` (api/chat.py lines 16-29): before the first
`chat_service is None` check, waiting to acquire `_init_lock`, holding
the lock, or done.  The lock body performs no `await`, so under
asyncio's cooperative scheduling the re-check, construction and
release execute without interleaving and are modelled as one step. -/
inductive TaskPC where
  | start
  | waiting
  | locked
  | finished
deriving DecidableEq

/-- Global state of `n` concurrent first-time requests: whether the
module-level `chat_service` has been assigned, who holds `_init_lock`,
how many times `ChatService()` has been constructed, and each task's
program counter. -/
structure InitSystem (n : Nat) where
  chatServiceSet : Bool
  lock : Option (Fin n)
  builds : Nat
  pc : Fin n → TaskPC

/-- One interleaving step of the double-checked-locking protocol of
`get_chat_service`: observe the global (set → done, unset → contend
for the lock), acquire the free lock, and, holding the lock, either
observe the global already set and release, or construct the service,
publish it and release.  `ChatService.__init__` catches its own
exceptions, so construction always publishes. -/
inductive InitStep {n : Nat} : InitSystem n → InitSystem n → Prop where
  | observe_ready (s : InitSystem n) (i : Fin n)
      (h1 : s.pc i = TaskPC.start) (h2 : s.chatServiceSet = true) :
      InitStep s { s with pc := Function.update s.pc i TaskPC.finished }
  | observe_unset (s : InitSystem n) (i : Fin n)
      (h1 : s.pc i = TaskPC.start) (h2 : s.chatServiceSet = false) :
      InitStep s { s with pc := Function.update s.pc i TaskPC.waiting }
  | acquire (s : InitSystem n) (i : Fin n)
      (h1 : s.pc i = TaskPC.waiting) (h2 : s.lock = none) :
      InitStep s { s with lock := some i, pc := Function.update s.pc i TaskPC.locked }
  | recheck_ready (s : InitSystem n) (i : Fin n)
      (h1 : s.pc i = TaskPC.locked) (h2 : s.chatServiceSet = true) :
      InitStep s { s with lock := none, pc := Function.update s.pc i TaskPC.finished }
  | build (s : InitSystem n) (i : Fin n)
      (h1 : s.pc i = TaskPC.locked) (h2 : s.chatServiceSet = false) :
      InitStep s { s with chatServiceSet := true, builds := s.builds + 1,
                          lock := none, pc := Function.update s.pc i TaskPC.finished }

/-- Initial state: no service, free lock, no constructions, all tasks
about to make their first-time calls. -/
def initState (n : Nat) : InitSystem n :=
  { chatServiceSet := false, lock := none, builds := 0, pc := fun _ => TaskPC.start }

/-- Reachability under interleaved protocol steps. -/
def InitReachable {n : Nat} (s t : InitSystem n) : Prop :=
  Relation.ReflTransGen InitStep s t

/-- Inductive invariant: the construction count tracks publication,
finished tasks only ever saw a published service, and a task in the
critical section holds the lock. -/
def InitInv {n : Nat} (s : InitSystem n) : Prop :=
  (s.builds = if s.chatServiceSet then 1 else 0) ∧
  (∀ i, s.pc i = TaskPC.finished → s.chatServiceSet = true) ∧
  (∀ i, s.pc i = TaskPC.locked → s.lock = some i)

/-- The invariant holds initially. -/
theorem initInv_init (n : Nat) : InitInv (initState n) := by
  refine ⟨rfl, fun i h => by simp [initState] at h, fun i h => by simp [initState] at h⟩

/-- The invariant is preserved by every protocol step. -/
theorem initInv_step {n : Nat} {s t : InitSystem n}
    (hinv : InitInv s) (hstep : InitStep s t) : InitInv t := by
  obtain ⟨hb, hf, hl⟩ := hinv
  cases hstep with
  | observe_ready i h1 h2 =>
    refine ⟨hb, fun j _ => h2, fun j hj => ?_⟩
    simp only [Function.update_apply] at hj
    by_cases hij : j = i
    · simp [hij] at hj
    · simp only [hij, if_false] at hj
      exact hl j hj
  | observe_unset i h1 h2 =>
    refine ⟨hb, fun j hj => ?_, fun j hj => ?_⟩
    · simp only [Function.update_apply] at hj
      by_cases hij : j = i
      · simp [hij] at hj
      · simp only [hij, if_false] at hj
        exact hf j hj
    · simp only [Function.update_apply] at hj
      by_cases hij : j = i
      · simp [hij] at hj
      · simp only [hij, if_false] at hj
        exact hl j hj
  | acquire i h1 h2 =>
    refine ⟨hb, fun j hj => ?_, fun j hj => ?_⟩
    · simp only [Function.update_apply] at hj
      by_cases hij : j = i
      · simp [hij] at hj
      · simp only [hij, if_false] at hj
        exact hf j hj
    · simp only [Function.update_apply] at hj
      by_cases hij : j = i
      · subst hij
        rfl
      · simp only [hij, if_false] at hj
        have hlj := hl j hj
        rw [h2] at hlj
        exact Option.noConfusion hlj
  | recheck_ready i h1 h2 =>
    refine ⟨hb, fun j _ => h2, fun j hj => ?_⟩
    simp only [Function.update_apply] at hj
    by_cases hij : j = i
    · simp [hij] at hj
    · simp only [hij, if_false] at hj
      have haj := hl j hj
      have hai := hl i h1
      rw [hai] at haj
      injection haj with hij2
      exact absurd hij2.symm hij
  | build i h1 h2 =>
    refine ⟨?_, fun j _ => rfl, fun j hj => ?_⟩
    · have hb0 : s.builds = 0 := by rw [h2] at hb; simpa using hb
      show s.builds + 1 = if true = true then 1 else 0
      simp [hb0]
    · simp only [Function.update_apply] at hj
      by_cases hij : j = i
      · simp [hij] at hj
      · simp only [hij, if_false] at hj
        have haj := hl j hj
        have hai := hl i h1
        rw [hai] at haj
        injection haj with hij2
        exact absurd hij2.symm hij

/-- The invariant holds in every reachable state. -/
theorem initInv_reachable {n : Nat} {s : InitSystem n}
    (h : InitReachable (initState n) s) : InitInv s := by
  induction h with
  | refl => exact initInv_init n
  | tail _ hstep ih => exact initInv_step ih hstep

/-- C9.  Single-flight initialization: in every reachable state at
most one task is inside the lock-protected critical section, and when
all of the `n ≥ 1` concurrent first-time calls have finished, exactly
one `ChatService` construction has run. -/
theorem single_flight_initialization {n : Nat} (s : InitSystem n)
    (h : InitReachable (initState n) s) :
    (∀ i j, s.pc i = TaskPC.locked → s.pc j = TaskPC.locked → i = j) ∧
    ((∀ i, s.pc i = TaskPC.finished) → 0 < n → s.builds = 1) := by
  obtain ⟨hb, hf, hl⟩ := initInv_reachable h
  constructor
  · intro i j hi hj
    have h1 := hl i hi
    have h2 := hl j hj
    rw [h1] at h2
    cases h2
    rfl
  · intro hall hn
    have hset := hf ⟨0, hn⟩ (hall ⟨0, hn⟩)
    rw [hset] at hb
    simpa using hb

/-- The single task of the C9 witness run. -/
def c9_i0 : Fin 1 := ⟨0, Nat.one_pos⟩

/-- Witness run, after the task observes the unset service. -/
def c9_s1 : InitSystem 1 :=
  { initState 1 with pc := Function.update (initState 1).pc c9_i0 TaskPC.waiting }

/-- Witness run, after the task acquires the lock. -/
def c9_s2 : InitSystem 1 :=
  { c9_s1 with lock := some c9_i0, pc := Function.update c9_s1.pc c9_i0 TaskPC.locked }

/-- Witness run, after the task constructs and publishes the service. -/
def c9_s3 : InitSystem 1 :=
  { c9_s2 with chatServiceSet := true, builds := c9_s2.builds + 1,
               lock := none, pc := Function.update c9_s2.pc c9_i0 TaskPC.finished }

/-- C9 (witness).  A concrete completed run with one task performs
exactly one construction. -/
theorem single_flight_initialization_witness :
    c9_s3.builds = 1 ∧ c9_s3.pc c9_i0 = TaskPC.finished := by
  have st1 : InitStep (initState 1) c9_s1 :=
    InitStep.observe_unset (initState 1) c9_i0 rfl rfl
  have st2 : InitStep c9_s1 c9_s2 :=
    InitStep.acquire c9_s1 c9_i0 rfl rfl
  have st3 : InitStep c9_s2 c9_s3 :=
    InitStep.build c9_s2 c9_i0 rfl rfl
  have hreach : InitReachable (initState 1) c9_s3 :=
    Relation.ReflTransGen.head st1
      (Relation.ReflTransGen.head st2 (Relation.ReflTransGen.single st3))
  have hall : ∀ i, c9_s3.pc i = TaskPC.finished := by
    intro i
    have h0 : i = c9_i0 := Subsingleton.elim i c9_i0
    rw [h0]
    rfl
  exact ⟨(single_flight_initialization c9_s3 hreach).2 hall Nat.one_pos, hall c9_i0⟩
